import Mathlib

/-!
Verification of the SAML authentication core (`src/lib/saml.js`).

The HTML Tag Scanner is the third-party `sax` library (not part of this
repository's sources); following the specification, it is abstracted as the
stream of open-tag events it emits over a document, each event carrying the
tag name (already case-normalized by the scanner), the attribute list, and
the scanner's reported character offset just past the tag.  All string
operations are modelled on character lists so that every definition reduces
by kernel computation.
-/

/-- An open-tag event emitted by the streaming scanner: tag `name`,
attribute association list `attrs`, and the scanner `pos`ition (offset in the
document directly after this tag), as exposed to `onopentag` callbacks. -/
structure OpenTag where
  name : String
  attrs : List (String × String)
  pos : Nat
deriving DecidableEq, Repr

/-- JavaScript attribute access `node.attributes.k`: the attribute's value,
or `none` (undefined) when the attribute is absent. -/
def attr (t : OpenTag) (k : String) : Option String :=
  (t.attrs.find? (fun p => p.1 == k)).map (fun p => p.2)

/-- One `onopentag` step of `getLoginPath` (src/lib/saml.js lines 49-53):
any `<form id="loginForm">` overwrites the accumulated `loginPath` with its
`action` attribute (`none` models an undefined `action`). -/
def loginFormStep (acc : Option String) (ev : OpenTag) : Option String :=
  if ev.name = "form" ∧ attr ev "id" = some "loginForm" then attr ev "action"
  else acc

/-- `getLoginPath` (src/lib/saml.js lines 41-60), given the open-tag event
stream of the fetched login page: fold `loginFormStep` over the events
starting from the initial `loginPath = ''`, and resolve the final value. -/
def getLoginPath (events : List OpenTag) : Option String :=
  events.foldl loginFormStep (some "")

/-- JavaScript `body.substr(pos, len)` on character positions. -/
def jsSubstr (s : String) (pos len : Nat) : String :=
  ((s.toList.drop pos).take len).asString

/-- Characters matched by `.` in a JavaScript regular expression without the
`s` flag: everything except the four line terminators. -/
def isJsDot (c : Char) : Bool :=
  !(c == '\n' || c == '\r' || c == Char.ofNat 0x2028 || c == Char.ofNat 0x2029)

/-- Whether a character list starts with the two characters `</`. -/
def startsClose : List Char → Bool
  | '<' :: '/' :: _ => true
  | _ => false

/-- Index of the last occurrence of `</` in a character list, if any. -/
def lastCloseIdx : List Char → Option Nat
  | [] => none
  | c :: rest =>
    match lastCloseIdx rest with
    | some j => some (j + 1)
    | none => if startsClose (c :: rest) then some 0 else none

/-- The error-text heuristic of `_login` (src/lib/saml.js lines 95-97):
`dirtyError = body.substr(position, 300)` followed by
`dirtyError.match(/^(.*)<\/)/`.  The anchored greedy `.*` (which cannot cross
a line terminator) captures up to the last `</` inside the first line of the
window; when no such occurrence exists the match fails and the whole
300-character window is kept. -/
def extractError (body : String) (pos : Nat) : String :=
  let dirty := jsSubstr body pos 300
  let line := dirty.toList.takeWhile isJsDot
  match lastCloseIdx line with
  | some i => (line.take i).asString
  | none => dirty

/-- The `samlResponse` component of `_login`'s `onopentag` handler
(src/lib/saml.js lines 90-92): an `<input name="SAMLResponse">` overwrites
the accumulator with its `value` attribute. -/
def samlInputStep (s : Option String) (ev : OpenTag) : Option String :=
  if ev.name = "input" ∧ attr ev "name" = some "SAMLResponse" then attr ev "value"
  else s

/-- The `errorText` component of `_login`'s `onopentag` handler
(src/lib/saml.js lines 94-98): any element whose `id` attribute equals
`errorText` overwrites the accumulator with the extracted error text. -/
def errorTextStep (body : String) (e : String) (ev : OpenTag) : String :=
  if attr ev "id" = some "errorText" then extractError body ev.pos else e

/-- One `onopentag` step of `_login`, updating both accumulators. -/
def loginStep (body : String) (st : Option String × String) (ev : OpenTag) :
    Option String × String :=
  (samlInputStep st.1 ev, errorTextStep body st.2 ev)

/-- The `_login` parse over the POST response body's open-tag events,
starting from `samlResponse = ''`, `errorText = ''`. -/
def loginScan (body : String) (events : List OpenTag) : Option String × String :=
  events.foldl (loginStep body) (some "", "")

/-- The `onend` handler of `_login` (src/lib/saml.js lines 102-108): reject
with the error text when it is truthy (non-empty), otherwise resolve the
accumulated `samlResponse`. -/
def loginResult (body : String) (events : List OpenTag) :
    Except String (Option String) :=
  if (loginScan body events).2 ≠ "" then Except.error (loginScan body events).2
  else Except.ok (loginScan body events).1

/-- Folding `loginFormStep` over events none of which is a
`<form id="loginForm">` leaves the accumulator unchanged. -/
theorem foldl_loginFormStep_const (post : List OpenTag) (s : Option String)
    (h : ∀ e ∈ post, ¬(e.name = "form" ∧ attr e "id" = some "loginForm")) :
    post.foldl loginFormStep s = s := by
  induction post generalizing s with
  | nil => rfl
  | cons e rest ih =>
    have he := h e (List.mem_cons_self e rest)
    have hrest : ∀ x ∈ rest, ¬(x.name = "form" ∧ attr x "id" = some "loginForm") :=
      fun x hx => h x (List.mem_cons_of_mem e hx)
    simp only [List.foldl_cons, loginFormStep, if_neg he]
    exact ih s hrest

/-- Folding `loginStep` over events that contain no `errorText`-id element
leaves the error-text accumulator unchanged. -/
theorem foldl_loginStep_snd (body : String) (post : List OpenTag)
    (st : Option String × String)
    (h : ∀ e ∈ post, attr e "id" ≠ some "errorText") :
    (post.foldl (loginStep body) st).2 = st.2 := by
  induction post generalizing st with
  | nil => rfl
  | cons e rest ih =>
    have he := h e (List.mem_cons_self e rest)
    have hrest : ∀ x ∈ rest, attr x "id" ≠ some "errorText" :=
      fun x hx => h x (List.mem_cons_of_mem e hx)
    have hstep : (loginStep body st e).2 = st.2 := by
      simp only [loginStep, errorTextStep, if_neg he]
    rw [List.foldl_cons, ih (loginStep body st e) hrest, hstep]

/-- Folding `loginStep` over events containing neither a SAMLResponse input
nor an `errorText`-id element leaves both accumulators unchanged. -/
theorem foldl_loginStep_const (body : String) (events : List OpenTag)
    (st : Option String × String)
    (h : ∀ e ∈ events,
      ¬(e.name = "input" ∧ attr e "name" = some "SAMLResponse") ∧
        attr e "id" ≠ some "errorText") :
    events.foldl (loginStep body) st = st := by
  induction events generalizing st with
  | nil => rfl
  | cons e rest ih =>
    have he := h e (List.mem_cons_self e rest)
    have hrest := fun x hx => h x (List.mem_cons_of_mem e hx)
    have hstep : loginStep body st e = st := by
      simp only [loginStep, samlInputStep, errorTextStep, if_neg he.1, if_neg he.2]
    rw [List.foldl_cons, hstep]
    exact ih st hrest

/-- C1 (counterexample): a login response in which the parser finds neither a
SAMLResponse input nor an `errorText` element makes `_login` resolve with the
initial empty string — it returns a value instead of failing with any error
(no `ProtocolError` is ever constructed). -/
theorem C1_counterexample : loginResult "" [] = Except.ok (some "") := rfl

/-- C1 (amended): for every response body whose event stream contains neither
an `<input name="SAMLResponse">` nor any element with `id = "errorText"`,
`_login` resolves successfully with the empty-string assertion value rather
than failing. -/
theorem C1_amended (body : String) (events : List OpenTag)
    (h : ∀ e ∈ events,
      ¬(e.name = "input" ∧ attr e "name" = some "SAMLResponse") ∧
        attr e "id" ≠ some "errorText") :
    loginResult body events = Except.ok (some "") := by
  unfold loginResult loginScan
  rw [foldl_loginStep_const body events (some "", "") h]
  rfl

/-- C1 (witness): the amended claim evaluated on a concrete page with one
unrelated tag. -/
theorem C1_witness :
    loginResult "<html></html>" [⟨"html", [], 6⟩] = Except.ok (some "") :=
  C1_amended "<html></html>" [⟨"html", [], 6⟩] (by decide)

/-- C4 (counterexample): with two `<form id="loginForm">` elements carrying
actions `/first` and `/second`, `getLoginPath` returns `/second` — the action
of the last matching form, not the first as claimed. -/
theorem C4_counterexample :
    getLoginPath
        [⟨"form", [("id", "loginForm"), ("action", "/first")], 0⟩,
          ⟨"form", [("id", "loginForm"), ("action", "/second")], 0⟩] =
      some "/second" ∧ ("/second" : String) ≠ "/first" :=
  ⟨rfl, by decide⟩

/-- C4 (amended): for every event stream containing a
`<form id="loginForm">` element after which no further such form occurs,
`getLoginPath` returns the `action` attribute of that last matching form,
regardless of surrounding markup. -/
theorem C4_amended (pre post : List OpenTag) (ev : OpenTag)
    (hev : ev.name = "form" ∧ attr ev "id" = some "loginForm")
    (hpost : ∀ e ∈ post, ¬(e.name = "form" ∧ attr e "id" = some "loginForm")) :
    getLoginPath (pre ++ ev :: post) = attr ev "action" := by
  unfold getLoginPath
  rw [List.foldl_append, List.foldl_cons]
  have hstep : loginFormStep (pre.foldl loginFormStep (some "")) ev =
      attr ev "action" := by
    simp only [loginFormStep, if_pos hev]
  rw [hstep]
  exact foldl_loginFormStep_const post (attr ev "action") hpost

/-- C4 (witness): the amended claim evaluated on a page with an earlier
matching form and a trailing unrelated tag. -/
theorem C4_witness :
    getLoginPath
        ([⟨"form", [("id", "loginForm"), ("action", "/old")], 0⟩] ++
          ⟨"form", [("id", "loginForm"), ("action", "/new")], 0⟩ ::
            [⟨"div", [], 0⟩]) =
      attr ⟨"form", [("id", "loginForm"), ("action", "/new")], 0⟩ "action" :=
  C4_amended _ _ _ (by decide) (by decide)

/-- C7 (counterexample): on a page whose event stream contains no
`<form id="loginForm">`, `getLoginPath` resolves with the empty string — it
returns a value instead of failing with any `DiscoveryError`. -/
theorem C7_counterexample : getLoginPath [] = some "" := rfl

/-- C7 (amended): for every event stream with no `<form id="loginForm">`
element, `getLoginPath` resolves successfully with the initial empty-string
login path rather than failing. -/
theorem C7_amended (events : List OpenTag)
    (h : ∀ e ∈ events, ¬(e.name = "form" ∧ attr e "id" = some "loginForm")) :
    getLoginPath events = some "" :=
  foldl_loginFormStep_const events (some "") h

/-- C7 (witness): the amended claim evaluated on a page with one unrelated
tag. -/
theorem C7_witness : getLoginPath [⟨"div", [], 0⟩] = some "" :=
  C7_amended [⟨"div", [], 0⟩] (by decide)

/-- Index of the first occurrence of `</` in a character list, if any. -/
def firstCloseIdx : List Char → Option Nat
  | [] => none
  | c :: rest =>
    if startsClose (c :: rest) then some 0
    else match firstCloseIdx rest with
      | some j => some (j + 1)
      | none => none

/-- The error message as the specification words it: the raw document text
following the element's offset, taken from a window of at most 300 bytes and
truncated at the first closing-tag boundary. -/
def claimErrorMessage (body : String) (pos : Nat) : String :=
  let dirty := jsSubstr body pos 300
  match firstCloseIdx dirty.toList with
  | some i => (dirty.toList.take i).asString
  | none => dirty

/-- C5 (counterexample): on the body `<p id="errorText">abc</p>def</div>`
(element offset 18), `_login` rejects with the message `abc</p>def` —
truncated at the last `</` of the window (the greedy anchored regex) — while
the claim's first-closing-tag truncation predicts `abc`. -/
theorem C5_counterexample :
    loginResult "<p id=\"errorText\">abc</p>def</div>"
        [⟨"p", [("id", "errorText")], 18⟩] =
      Except.error "abc</p>def" ∧
    claimErrorMessage "<p id=\"errorText\">abc</p>def</div>" 18 = "abc" ∧
    ("abc</p>def" : String) ≠ "abc" :=
  ⟨rfl, rfl, by decide⟩

/-- C5 (amended): for every response body whose event stream contains an
element with `id = "errorText"` after which no further such element occurs,
if the text extracted at that element's offset — a window of at most 300
characters, truncated at the last `</` boundary on the window's first line,
or the whole window when no such boundary exists — is non-empty, then
`_login` fails with an authentication error carrying exactly that text. -/
theorem C5_amended (body : String) (pre post : List OpenTag) (ev : OpenTag)
    (hev : attr ev "id" = some "errorText")
    (hpost : ∀ e ∈ post, attr e "id" ≠ some "errorText")
    (hne : extractError body ev.pos ≠ "") :
    loginResult body (pre ++ ev :: post) =
      Except.error (extractError body ev.pos) := by
  have hscan : (loginScan body (pre ++ ev :: post)).2 = extractError body ev.pos := by
    unfold loginScan
    rw [List.foldl_append, List.foldl_cons]
    rw [foldl_loginStep_snd body post _ hpost]
    simp only [loginStep, errorTextStep, if_pos hev]
  unfold loginResult
  rw [hscan]
  exact if_pos hne

/-- C5 (witness): the amended claim evaluated on a concrete error page whose
extracted message is `Bad user`. -/
theorem C5_witness :
    loginResult "<p id=\"errorText\">Bad user</p>"
        ([] ++ ⟨"p", [("id", "errorText")], 18⟩ :: []) =
      Except.error (extractError "<p id=\"errorText\">Bad user</p>" 18) :=
  C5_amended _ [] [] _ (by decide) (by decide) (by decide)

/-- JavaScript truthiness of the session's `_samlResponse` field: `null`
(`none`) and the empty string are falsy. -/
def truthyStr : Option String → Bool
  | none => false
  | some s => !(s == "")

/-- `getSamlResponse` (src/lib/saml.js lines 121-131) as a state step: given
the session's cached `_samlResponse` and the value the `_login` POST would
resolve with, return (resolved value, new cached value, whether a credential
POST was performed).  A truthy cache is returned as-is with no POST;
otherwise `_login` runs, its value is stored and returned. -/
def getSamlResponse (cache : Option String) (loginVal : Option String) :
    Option String × Option String × Bool :=
  if truthyStr cache then (cache, cache, false) else (loginVal, loginVal, true)

/-- C2 (counterexample): a first successful login resolving the empty-string
assertion stores it, yet a second call performs another credential POST and
reassigns the cache to the new value `x` — the second call neither returns
the cached value nor leaves the cache unchanged. -/
theorem C2_counterexample :
    getSamlResponse none (some "") = (some "", some "", true) ∧
    getSamlResponse (some "") (some "x") = (some "x", some "x", true) ∧
    (some "x" : Option String) ≠ some "" :=
  ⟨rfl, rfl, by decide⟩

/-- C2 (amended): for every session whose first successful login yields a
non-empty assertion `v`, the first call returns `v` after one POST, and a
second call returns the identical cached `v` without a second credential
POST, leaving the cache unchanged; an empty first assertion is treated as
absent by the cache check and is reassigned by the second call. -/
theorem C2_amended (v : String) (w : Option String) (hv : v ≠ "") :
    getSamlResponse none (some v) = (some v, some v, true) ∧
    getSamlResponse (some v) w = (some v, some v, false) := by
  constructor
  · rfl
  · have ht : truthyStr (some v) = true := by
      simp only [truthyStr, Bool.not_eq_true']
      exact beq_false_of_ne hv
    simp only [getSamlResponse, ht, if_true]

/-- C2 (witness): the amended claim evaluated at the concrete assertion
`abc` with a second login oracle value `zzz`. -/
theorem C2_witness :
    getSamlResponse none (some "abc") = (some "abc", some "abc", true) ∧
    getSamlResponse (some "abc") (some "zzz") = (some "abc", some "abc", false) :=
  C2_amended "abc" (some "zzz") (by decide)

/-- C9: an empty assertion resolved by `_login` is stored in the session
cache, but the truthiness check treats it as absent: a subsequent
`getSamlResponse` call on the same session performs the credential POST
again (third component `true`) and returns the fresh login value instead of
the cached empty string. -/
theorem C9_cache_empty (w : Option String) :
    (getSamlResponse none (some "")).2.1 = some "" ∧
    getSamlResponse (some "") w = (w, w, true) :=
  ⟨rfl, rfl⟩

/-- A (principal ARN, role ARN) pair extracted from one text node of the
decoded assertion.  `roleArn` is `none` when the text has no comma (the
JavaScript destructuring leaves it undefined). -/
structure RoleCandidate where
  principalArn : String
  roleArn : Option String
deriving DecidableEq, Repr

/-- The test `/^arn:aws:iam::.*/.test(text)` (src/lib/saml.js line 188): the
anchored pattern holds exactly when the text starts with `arn:aws:iam::`. -/
def matchesArn (text : String) : Bool :=
  "arn:aws:iam::".toList.isPrefixOf text.toList

/-- JavaScript `text.split(',')`: the comma-separated fields of the text, in
order; never empty (a comma-free text yields a single field). -/
def splitFieldsAux : List Char → List Char → List String
  | [], acc => [acc.reverse.asString]
  | c :: rest, acc =>
    if c = ',' then acc.reverse.asString :: splitFieldsAux rest []
    else splitFieldsAux rest (c :: acc)

/-- `splitFields s` is `s.split(',')` in JavaScript. -/
def splitFields (s : String) : List String :=
  splitFieldsAux s.toList []

/-- The destructuring `const [principalArn, roleArn] = text.split(',')`
(src/lib/saml.js line 189): field 0 and field 1 of the comma split. -/
def roleFromText (text : String) : RoleCandidate :=
  { principalArn := (splitFields text).headD ""
    roleArn := (splitFields text)[1]? }

/-- `parseRoles` (src/lib/saml.js lines 180-199), over the text-node stream
the scanner emits for the base64-decoded assertion: push one candidate per
text node matching the `arn:aws:iam::` prefix, in document order. -/
def parseRoles : List String → List RoleCandidate
  | [] => []
  | t :: rest =>
    if matchesArn t then roleFromText t :: parseRoles rest else parseRoles rest

/-- Joining with commas, the inverse of all-comma splitting. -/
def joinComma : List String → String
  | [] => ""
  | [s] => s
  | s :: rest => s ++ "," ++ joinComma rest

/-- The candidate as the claim words it: the text split on the FIRST comma,
`principalArn` the part before it and `roleArn` everything after it. -/
def roleFromTextFirstComma (text : String) : RoleCandidate :=
  match splitFields text with
  | [] => { principalArn := text, roleArn := none }
  | p :: rest =>
    { principalArn := p
      roleArn := if rest = [] then none else some (joinComma rest) }

/-- The extractor as amended: scan the text nodes in order and, for each one
matching the `arn:aws:iam::` prefix, keep the first two comma-separated
fields as the candidate. -/
def parseRolesSpec (texts : List String) : List RoleCandidate :=
  texts.filterMap (fun t =>
    if matchesArn t then
      some { principalArn := (splitFields t).headD "", roleArn := (splitFields t)[1]? }
    else none)

/-- C3 (counterexample): on a matching text node holding two commas,
`parseRoles` produces `roleArn = "arn:aws:iam::1:role/A"` — the second
comma-separated field — whereas splitting on the first comma, as the claim
states, would give `"arn:aws:iam::1:role/A,X"`. -/
theorem C3_counterexample :
    parseRoles ["arn:aws:iam::1:saml-provider/P,arn:aws:iam::1:role/A,X"] =
      [{ principalArn := "arn:aws:iam::1:saml-provider/P"
         roleArn := some "arn:aws:iam::1:role/A" }] ∧
    roleFromTextFirstComma "arn:aws:iam::1:saml-provider/P,arn:aws:iam::1:role/A,X" =
      { principalArn := "arn:aws:iam::1:saml-provider/P"
        roleArn := some "arn:aws:iam::1:role/A,X" } ∧
    (some "arn:aws:iam::1:role/A" : Option String) ≠ some "arn:aws:iam::1:role/A,X" :=
  ⟨rfl, rfl, by decide⟩

/-- C3 (amended): for every text-node stream of the decoded assertion,
`parseRoles` appends, for each text node matching the `arn:aws:iam::`
prefix, one candidate made of the first two comma-separated fields of that
text (text after a second comma is dropped; `roleArn` is undefined when the
text has no comma), in document order; a stream with no matching node yields
the empty list, not an error. -/
theorem C3_amended (texts : List String) :
    parseRoles texts = parseRolesSpec texts ∧
    ((∀ t ∈ texts, matchesArn t = false) → parseRoles texts = []) := by
  constructor
  · induction texts with
    | nil => rfl
    | cons t rest ih =>
      simp only [parseRoles, parseRolesSpec, List.filterMap_cons]
      by_cases h : matchesArn t
      · simp only [h, if_true, if_pos]
        exact congrArg _ ih
      · simp only [h, if_false, Bool.false_eq_true]
        exact ih
  · intro h
    induction texts with
    | nil => rfl
    | cons t rest ih =>
      have ht := h t (List.mem_cons_self t rest)
      have hrest := fun x hx => h x (List.mem_cons_of_mem t hx)
      simp only [parseRoles, ht, Bool.false_eq_true, if_false]
      exact ih hrest

/-- C3 (witness): the amended claim evaluated on a stream with one
non-matching text node, discharging the zero-match hypothesis. -/
theorem C3_witness : parseRoles ["xyz"] = [] :=
  (C3_amended ["xyz"]).2 (by decide)

/-- The resolved value of a successful `assumeRole` call (src/lib/saml.js
lines 216-220): the role ARN merged with the returned credentials payload. -/
structure AssumedRole where
  Arn : String
  credentials : String
deriving DecidableEq, Repr

/-- `results.filter(Boolean)` (src/lib/saml.js line 160) over the resolved
values of the per-role promises: a failed `assumeRole` resolves a falsy
value (`none`, the undefined result of its catch handler) and is dropped; a
successful one resolves an object and is kept. -/
def collectAccounts (results : List (Option AssumedRole)) : List AssumedRole :=
  results.filterMap id

/-- The role-assumption stage of `authenticate` (src/lib/saml.js lines
158-161): map every candidate through the token exchange — `ex` gives each
call's resolved value, `none` on failure — and keep the truthy results. -/
def assumeAllStage (roles : List RoleCandidate)
    (ex : RoleCandidate → Option AssumedRole) : List AssumedRole :=
  collectAccounts (roles.map ex)

/-- C6: the role-assumption stage keeps exactly the roles whose exchange
succeeded — the output is the `filterMap` of the exchange over the
candidates, its length is the number of successes — and when every exchange
fails the stage returns the empty list without raising. -/
theorem C6_partial_failure (roles : List RoleCandidate)
    (ex : RoleCandidate → Option AssumedRole) :
    assumeAllStage roles ex = roles.filterMap ex ∧
    (assumeAllStage roles ex).length =
      (roles.filter (fun r => (ex r).isSome)).length ∧
    ((∀ r ∈ roles, ex r = none) → assumeAllStage roles ex = []) := by
  have key : ∀ l : List RoleCandidate, assumeAllStage l ex = l.filterMap ex := by
    intro l
    unfold assumeAllStage collectAccounts
    induction l with
    | nil => rfl
    | cons r rest ih =>
      simp only [List.map_cons, List.filterMap_cons, id]
      cases ex r with
      | none => exact ih
      | some a => exact congrArg _ ih
  have hlen : ∀ l : List RoleCandidate,
      (l.filterMap ex).length = (l.filter (fun r => (ex r).isSome)).length := by
    intro l
    induction l with
    | nil => rfl
    | cons r rest ih =>
      simp only [List.filterMap_cons, List.filter_cons]
      cases h : ex r with
      | none => simpa [h] using ih
      | some a => simpa [h] using ih
  have hempty : ∀ l : List RoleCandidate,
      (∀ r ∈ l, ex r = none) → l.filterMap ex = [] := by
    intro l
    induction l with
    | nil => intro h; rfl
    | cons r rest ih =>
      intro h
      have hr := h r (List.mem_cons_self r rest)
      have hrest := fun x hx => h x (List.mem_cons_of_mem r hx)
      simp only [List.filterMap_cons, hr]
      exact ih hrest
  exact ⟨key roles, by rw [key roles]; exact hlen roles,
    fun h => by rw [key roles]; exact hempty roles h⟩

/-- C6 (witness): the all-fail conjunct evaluated on one concrete candidate
with an always-failing exchange. -/
theorem C6_witness :
    assumeAllStage [{ principalArn := "p", roleArn := some "r" }]
        (fun _ => none) = [] :=
  (C6_partial_failure [{ principalArn := "p", roleArn := some "r" }]
    (fun _ => none)).2.2 (fun _ _ => rfl)

/-- A labeled account as built by `authenticate` (src/lib/saml.js lines
165-168): the role ARN and the resolved display name. -/
structure Account where
  Arn : String
  name : String
deriving DecidableEq, Repr

/-- The maximal leading run of decimal digits of a character list, paired
with the remaining characters. -/
def splitDigits : List Char → List Char × List Char
  | [] => ([], [])
  | c :: rest =>
    if c.isDigit then
      let p := splitDigits rest
      (c :: p.1, p.2)
    else ([], c :: rest)

/-- `arn.match(/(\d+):role/)`'s capture group, scanning left to right: at
the first position where a maximal digit run is directly followed by
`:role`, that run is captured (a shorter greedy backtrack cannot succeed, as
the following character would be a digit, not `:`). `none` when the pattern
occurs nowhere (the JavaScript `match` returns `null`). -/
def extractAccountIdAux : List Char → Option String
  | [] => none
  | c :: rest =>
    if c.isDigit then
      let p := splitDigits (c :: rest)
      if ":role".toList.isPrefixOf p.2 then some p.1.asString
      else extractAccountIdAux rest
    else extractAccountIdAux rest

/-- The numeric account id embedded in a role ARN: the digits directly
preceding `:role` (src/lib/saml.js line 163). -/
def extractAccountId (arn : String) : Option String :=
  extractAccountIdAux arn.toList

/-- JavaScript object property access `m[k]`: the stored value, or `none`
(undefined) when the key is absent. -/
def lookupJs (m : List (String × String)) (k : String) : Option String :=
  (m.find? (fun p => p.1 == k)).map (fun p => p.2)

/-- The labeling of one assumed role by `authenticate` (src/lib/saml.js
lines 162-168): destructure `arn.match(/(\d+):role/)` — a `TypeError` when
the match is `null` — then read `config.accountMapping[accountId]` — a
`TypeError` when `accountMapping` is undefined — and take that value when
truthy, the account id otherwise (`... || accountId`). -/
def labelAccount (mapping : Option (List (String × String))) (arn : String) :
    Except String Account :=
  match extractAccountId arn with
  | none => Except.error "TypeError: null is not iterable"
  | some accountId =>
    match mapping with
    | none => Except.error "TypeError: cannot read properties of undefined"
    | some m =>
      Except.ok
        { Arn := arn
          name :=
            match lookupJs m accountId with
            | some v => if v ≠ "" then v else accountId
            | none => accountId }

/-- The `accounts.map(...)` labeling stage of `authenticate` over the ARNs
of the successfully assumed roles: build each labeled account in order,
propagating the first thrown `TypeError`. -/
def labelAccounts (mapping : Option (List (String × String))) :
    List String → Except String (List Account)
  | [] => Except.ok []
  | arn :: rest =>
    match labelAccount mapping arn with
    | Except.error e => Except.error e
    | Except.ok a =>
      match labelAccounts mapping rest with
      | Except.error e => Except.error e
      | Except.ok others => Except.ok (a :: others)

/-- C8 (counterexample): with the mapping sending account id `123` to the
empty display name, the labeled account's name is `123` — the fall-back —
even though `123` is a key of the mapping, whose value is `""`. -/
theorem C8_counterexample :
    lookupJs [("123", "")] "123" = some "" ∧
    labelAccount (some [("123", "")]) "arn:aws:iam::123:role/x" =
      Except.ok { Arn := "arn:aws:iam::123:role/x", name := "123" } ∧
    ("123" : String) ≠ "" :=
  ⟨rfl, rfl, by decide⟩

/-- C8 (amended): for every assumed role whose ARN yields an account id
(digits directly preceding `:role`) and caller-supplied mapping, the display
name is the mapping's value when the id is a key bound to a non-empty
(truthy) value, and the account id itself when the id is absent from the
mapping. -/
theorem C8_amended (m : List (String × String)) (arn accountId : String)
    (hx : extractAccountId arn = some accountId) :
    (∀ v, lookupJs m accountId = some v → v ≠ "" →
      labelAccount (some m) arn = Except.ok { Arn := arn, name := v }) ∧
    (lookupJs m accountId = none →
      labelAccount (some m) arn = Except.ok { Arn := arn, name := accountId }) := by
  constructor
  · intro v hv hne
    simp only [labelAccount, hx, hv, if_pos hne]
  · intro hv
    simp only [labelAccount, hx, hv]

/-- C8 (witness): the amended claim evaluated at a mapped id (`111`, display
name `prod`) via its first conjunct. -/
theorem C8_witness :
    labelAccount (some [("111", "prod")]) "arn:aws:iam::111:role/RoleA" =
      Except.ok { Arn := "arn:aws:iam::111:role/RoleA", name := "prod" } :=
  (C8_amended [("111", "prod")] "arn:aws:iam::111:role/RoleA" "111"
    (by decide)).1 "prod" (by decide) (by decide)

/-- C10: when the configuration's `accountMapping` is absent, the labeling
stage throws a `TypeError` for every non-empty list of successfully assumed
roles — `authenticate` rejects even though all preceding stages succeeded. -/
theorem C10_missing_mapping (arns : List String) (h : arns ≠ []) :
    ∃ e, labelAccounts none arns = Except.error e := by
  match arns with
  | [] => exact absurd rfl h
  | arn :: rest =>
    have hone : ∃ e, labelAccount none arn = Except.error e := by
      cases hx : extractAccountId arn with
      | none =>
        exact ⟨"TypeError: null is not iterable", by simp only [labelAccount, hx]⟩
      | some accountId =>
        exact ⟨"TypeError: cannot read properties of undefined",
          by simp only [labelAccount, hx]⟩
    obtain ⟨e, he⟩ := hone
    exact ⟨e, by simp only [labelAccounts, he]⟩

/-- C10 (witness): the claim evaluated at a single assumed role. -/
theorem C10_witness :
    ∃ e, labelAccounts none ["arn:aws:iam::123:role/x"] = Except.error e :=
  C10_missing_mapping ["arn:aws:iam::123:role/x"] (by decide)
